import Mathlib

/-!
Shallow embedding of `vendor/github.com/Azure/go-autorest/autorest/azure/azure.go`
(package `azure` of the vendored go-autorest library).

The `azure` package is a thin adapter over the generic `autorest` package, which is
not part of the supplied sources.  Every collaborator drawn from `autorest` (or from
the Go standard library) is therefore modelled from the specification; each such
definition carries a doc comment starting with `Modelled from the spec:`.  All other
definitions are direct translations of the Go source.

Modelling conventions:
  * HTTP headers are association lists from header name to value.  In Go every
    header read and write goes through `http.CanonicalHeaderKey`, so canonicalisation
    is a bijection applied uniformly on both sides; we model it as the identity and
    compare header names as exact strings (the source only ever uses the four
    constant names below).
  * A response body is a stream; we record the bytes it holds, whether the
    underlying stream has been closed, and whether it is an in-memory
    (`ioutil.NopCloser` over a buffer) reader.
  * Go `error` values are an inductive `Err`; `nil` errors are `Option.none`.
    The `*RequestError` pointer type is the `Err.request` constructor (its
    `autorest.DetailedError` embedded fields are flattened into the constructor).
  * Fallible operations return the error alongside their results, mirroring Go's
    multiple return values.
-/

set_option autoImplicit false

namespace Azure

/-- HeaderAsyncOperation is the Azure header containing the location to poll for
long-running operations. -/
def HeaderAsyncOperation : String := "Azure-AsyncOperation"

/-- HeaderClientID is the Azure extension header to set a user-specified request ID. -/
def HeaderClientID : String := "x-ms-client-request-id"

/-- HeaderReturnClientID is the Azure extension header to set if the user-specified
request ID should be included in the response. -/
def HeaderReturnClientID : String := "x-ms-return-client-request-id"

/-- HeaderRequestID is the Azure extension header of the service generated request ID
returned in the response. -/
def HeaderRequestID : String := "x-ms-request-id"

/-- ServiceError encapsulates the error response from an Azure service. -/
structure ServiceError where
  code : String
  message : String
deriving DecidableEq, Repr

/-- Headers of an HTTP request or response: an association list from header name to
value (header names compared exactly; Go's canonicalisation is modelled as the
identity, see the module comment). -/
abbrev Headers : Type := List (String × String)

/-- Modelled from the spec: header lookup, returning the value of the first entry
with the given name, or `none` when the header is absent. -/
def headerGet? : Headers → String → Option String
  | [], _ => none
  | (k, v) :: rest, key => if k = key then some v else headerGet? rest key

/-- Modelled from the spec: `http.Header.Get`, which returns the header value or the
empty string when the header is absent. -/
def headerGet (hs : Headers) (key : String) : String :=
  (headerGet? hs key).getD ""

/-- Modelled from the spec: `http.Header.Set`, which replaces any existing values of
the named header with the single given value and leaves every other header alone. -/
def setHeader (hs : Headers) (key value : String) : Headers :=
  hs.filter (fun p => p.1 != key) ++ [(key, value)]

/-- State of an HTTP response body stream: the bytes it holds, whether the
underlying stream has been closed, and whether it is an in-memory
(`ioutil.NopCloser` over a buffer) reader. -/
structure Body where
  data : String
  closed : Bool
  inMemory : Bool
deriving DecidableEq, Repr

/-- The parts of Go's `http.Response` that the `azure` package reads or writes. -/
structure Response where
  statusCode : Nat
  headers : Headers
  body : Body

/-- The parts of Go's `http.Request` that the `azure` package reads or writes. -/
structure Request where
  method : String
  url : String
  headers : Headers

/-- Modelled from the spec: `autorest.UndefinedStatusCode`, the status-code sentinel
used when no response is available. -/
def UndefinedStatusCode : Nat := 0

/-- Go `error` values occurring in this package.  `Err.request` is a
`*azure.RequestError` with the embedded `autorest.DetailedError` fields
(`Original`, `PackageType`, `Method`, `StatusCode`, `Message`) flattened in,
followed by the `ServiceError` and `RequestID` fields.  `Err.detailed` is a
plain `autorest.DetailedError` (as produced by `autorest.NewErrorWithResponse`),
`Err.generic` an error from `fmt.Errorf`, `Err.cancel` a cancellation, and
`Err.transport` a transport failure from the base sender. -/
inductive Err where
  | request (original : Option Err) (packageType : String) (method : String)
      (statusCode : Nat) (message : String)
      (serviceError : Option ServiceError) (requestID : String)
  | detailed (packageType : String) (method : String) (statusCode : Nat) (message : String)
  | generic (msg : String)
  | cancel
  | transport (msg : String)
deriving Repr

/-- The `ServiceError` field of a `*RequestError`, `none` on any other error kind. -/
def Err.serviceErrorOf : Err → Option ServiceError
  | .request _ _ _ _ _ se _ => se
  | _ => none

/-- The `RequestID` field of a `*RequestError`, `none` on any other error kind. -/
def Err.requestIDOf : Err → Option String
  | .request _ _ _ _ _ _ rid => some rid
  | _ => none

/-- The `StatusCode` field of a `*RequestError`, `none` on any other error kind. -/
def Err.statusCodeOf : Err → Option Nat
  | .request _ _ _ sc _ _ _ => some sc
  | _ => none

/-- Modelled from fmt: the `%q` verb.  Escape sequences are elided, which is
faithful for strings containing no quote, backslash or control characters (the
only strings the theorems below evaluate it on). -/
def goQuote (s : String) : String := "\"" ++ s ++ "\""

/-- IsAzureError returns true if the passed error is an Azure Service error
(`e.(*RequestError)` succeeds); false otherwise. -/
def IsAzureError : Err → Bool
  | .request .. => true
  | _ => false

/-- RequestError.Error: returns a human-friendly error message from the service
error.  The Go method dereferences `e.ServiceError` unconditionally; when that
field is nil the call panics, modelled here as `none`. -/
def requestErrorString : Err → Option String
  | .request _ _ _ sc _ se _ =>
    match se with
    | none => none
    | some s =>
      some ("azure: Service returned an error. Code=" ++ goQuote s.code
        ++ " Message=" ++ goQuote s.message ++ " Status=" ++ toString sc)
  | _ => none

/-- NewErrorWithError creates a new Error conforming object from the passed
packageType, method, statusCode of the given resp (UndefinedStatusCode if resp is
nil), message, and original error.  When the original error is already a
`*RequestError` it is returned unchanged.  (`message` is the already-formatted
message; the Go format-string varargs are applied before the call.) -/
def NewErrorWithError (original : Option Err) (packageType : String) (method : String)
    (resp : Option Response) (message : String) : Err :=
  match original with
  | some (.request o p m sc msg se rid) => .request o p m sc msg se rid
  | _ =>
    let statusCode := match resp with
      | none => UndefinedStatusCode
      | some r => r.statusCode
    .request original packageType method statusCode message none ""

/-- Modelled from the spec: `autorest.ExtractHeaderValue` reads the named header
from the response, returning the empty string when absent. -/
def ExtractHeaderValue (header : String) (resp : Response) : String :=
  headerGet resp.headers header

/-- ExtractClientID extracts the client identifier from the x-ms-client-request-id
header set on the http.Request sent to the service (and returned in the
http.Response). -/
def ExtractClientID (resp : Response) : String :=
  ExtractHeaderValue HeaderClientID resp

/-- ExtractRequestID extracts the Azure server generated request identifier from the
x-ms-request-id header. -/
def ExtractRequestID (resp : Response) : String :=
  ExtractHeaderValue HeaderRequestID resp

/-- Modelled from the spec: `autorest.WithHeader` produces a request-mutating
preparer that sets the named header to the given value (applied here with the
identity inner preparer, which never fails). -/
def WithHeader (header value : String) (r : Request) : Request :=
  { r with headers := setHeader r.headers header value }

/-- WithClientID returns a PrepareDecorator that adds an HTTP extension header of
x-ms-client-request-id whose value is the passed, undecorated UUID. -/
def WithClientID (uuid : String) (r : Request) : Request :=
  WithHeader HeaderClientID uuid r

/-- WithReturnClientID returns a PrepareDecorator that adds an HTTP extension header
of x-ms-return-client-request-id whose boolean value indicates if the value of the
x-ms-client-request-id header should be included in the http.Response
(`strconv.FormatBool` renders the boolean). -/
def WithReturnClientID (b : Bool) (r : Request) : Request :=
  WithHeader HeaderReturnClientID (if b then "true" else "false") r

/-- GetAsyncOperation retrieves the long-running URL to poll from the passed
response (`resp.Header.Get` of the canonicalised `Azure-AsyncOperation` key). -/
def GetAsyncOperation (resp : Response) : String :=
  headerGet resp.headers HeaderAsyncOperation

/-- Modelled from the spec: `autorest.ResponseRequiresPolling`, the generic
"requires polling" predicate over a response and extra accepted status codes.  The
spec commits to status 202 (Accepted) signalling polling; the extra codes passed by
the caller also signal it. -/
def ResponseRequiresPolling (resp : Response) (codes : List Nat) : Bool :=
  resp.statusCode == 202 || codes.contains resp.statusCode

/-- ResponseIsLongRunning returns true if the passed response is for an Azure
long-running operation (`autorest.ResponseRequiresPolling(resp, http.StatusCreated)
&& GetAsyncOperation(resp) != ""`). -/
def ResponseIsLongRunning (resp : Response) : Bool :=
  ResponseRequiresPolling resp [201] && GetAsyncOperation resp != ""

/-- Outcome of one `Sender.Do` call of the base sender: a response or a transport
error.  A base sender is modelled by the list of outcomes of its successive calls. -/
inductive SendResult where
  | ok (resp : Response)
  | err (e : Err)

/-- The `for` loop of `WithAsyncPolling`: while no error occurred and the latest
response is long-running, run `autorest.DelayForBackoff` (its outcome — `none` for a
completed delay, `some e` for a cancellation — is taken from `delays`) and, when the
delay completed, re-issue the request via the base sender (next entry of `sends`).
Returns the final response, the final error, and the number of base-sender calls
made by the loop.  Exhausting either model list stops with a model-artifact
transport error (the theorems below never reach it). -/
def pollLoop : List SendResult → List (Option Err) → Response → Response × Option Err × Nat
  | sends, delays, resp =>
    if ResponseIsLongRunning resp then
      match delays with
      | [] => (resp, some (Err.transport "model: delay list exhausted"), 0)
      | some e :: _ => (resp, some e, 0)
      | none :: ds =>
        match sends with
        | [] => (resp, some (Err.transport "model: send list exhausted"), 0)
        | SendResult.err e :: _ => (resp, some e, 1)
        | SendResult.ok nextResp :: ss =>
          let r := pollLoop ss ds nextResp
          (r.1, r.2.1, r.2.2 + 1)
    else (resp, none, 0)

/-- WithAsyncPolling will poll until the completion of an Azure long-running
operation: issue the request once, then loop via `pollLoop`.  The base sender is
modelled by `sends`, the successive `DelayForBackoff` outcomes by `delays` (see
`pollLoop`).  Returns the response (none when the first call failed), the error,
and the total number of base-sender invocations. -/
def WithAsyncPolling (sends : List SendResult) (delays : List (Option Err)) :
    Option Response × Option Err × Nat :=
  match sends with
  | [] => (none, some (Err.transport "model: send list exhausted"), 0)
  | SendResult.err e :: _ => (none, some e, 1)
  | SendResult.ok resp :: ss =>
    let r := pollLoop ss delays resp
    (some r.1, r.2.1, r.2.2 + 1)

/-- NewAsyncPollingRequest allocates and returns a new http.Request to poll an Azure
long-running operation.  If it successfully creates the request, it will also close
the body of the passed response (via `autorest.Respond(resp, c.ByInspecting(),
autorest.ByClosing())`), otherwise the body remains open.  The `autorest.Prepare`
pipeline (`AsGet()`, `WithBaseURL(location)`) is modelled from the spec: `urlOK`
says whether the base-URL preparer accepts the location, `AsGet` sets the method to
GET, and the client's `ByInspecting` is the default (identity) response inspector.
Returns the request, the error, and the response in its final state. -/
def NewAsyncPollingRequest (urlOK : String → Bool) (resp : Response) :
    (Option Request × Option Err) × Response :=
  let location := GetAsyncOperation resp
  if location = "" then
    ((none, some (Err.detailed "azure" "NewAsyncPollingRequest" resp.statusCode
        "Azure-AsyncOperation header missing from response that requires polling")),
     resp)
  else if urlOK location then
    ((some { method := "GET", url := location, headers := [] }, none),
     { resp with body := { resp.body with closed := true } })
  else
    ((none, some (NewErrorWithError (some (Err.generic ("parse " ++ location)))
        "azure" "NewAsyncPollingRequest" none
        ("Failure creating poll request to " ++ location))),
     resp)

/-- Modelled from the spec: `autorest.ResponseHasStatusCode` — does the response
status match one of the given codes. -/
def ResponseHasStatusCode (resp : Response) (codes : List Nat) : Bool :=
  codes.contains resp.statusCode

/-- Outcome of `autorest.CopyAndDecode`'s JSON decoding of the body bytes into a
`RequestError`: decoding may fail, or succeed with the decoded `error` field
(`ServiceError`), which JSON `null` leaves nil. -/
inductive DecodeResult where
  | failure
  | success (serviceError : Option ServiceError)

/-- Result of running the responder built by `WithErrorUnlessStatusCode` on a
response: the final response (its body possibly replaced), whether the original
body stream was closed, and the error returned. -/
structure RespondResult where
  resp : Response
  originalBodyClosed : Bool
  err : Option Err

/-- WithErrorUnlessStatusCode returns a RespondDecorator that emits an
azure.RequestError by reading the response body unless the response HTTP status
code is among the set passed.  `inner` is the wrapped `autorest.Responder`
(returning the possibly-updated response and its error); `decode` is the abstract
JSON decoder of `autorest.CopyAndDecode` (modelled from the spec), applied to the
body bytes, of which `CopyAndDecode` also returns an in-memory copy.  The deferred
`resp.Body.Close()` closes the original body stream, and the body is replaced by
an `ioutil.NopCloser` in-memory reader over the copied bytes.  In the unparsable
case `fmt.Errorf` formats the copied bytes with `%q` and the inner responder's
error — nil on this path — with `%v`. -/
def WithErrorUnlessStatusCode (codes : List Nat) (decode : String → DecodeResult)
    (inner : Response → Response × Option Err) (resp : Response) : RespondResult :=
  let innerResult := inner resp
  match innerResult.2 with
  | some e => { resp := innerResult.1, originalBodyClosed := false, err := some e }
  | none =>
    let resp := innerResult.1
    if ResponseHasStatusCode resp codes then
      { resp := resp, originalBodyClosed := false, err := none }
    else
      let b := resp.body.data
      let resp := { resp with body := { data := b, closed := false, inMemory := true } }
      match decode b with
      | DecodeResult.failure =>
        { resp := resp, originalBodyClosed := true,
          err := some (Err.generic ("autorest/azure: error response cannot be parsed: "
            ++ goQuote b ++ " error: <nil>")) }
      | DecodeResult.success none =>
        { resp := resp, originalBodyClosed := true,
          err := some (Err.generic ("autorest/azure: error response cannot be parsed: "
            ++ goQuote b ++ " error: <nil>")) }
      | DecodeResult.success (some se) =>
        { resp := resp, originalBodyClosed := true,
          err := some (Err.request none "" "" resp.statusCode "" (some se)
            (ExtractRequestID resp)) }

/-! Helper lemmas about header lookup after `setHeader`. -/

theorem headerGet?_append (l₁ l₂ : Headers) (k : String) :
    headerGet? (l₁ ++ l₂) k =
      match headerGet? l₁ k with
      | some v => some v
      | none => headerGet? l₂ k := by
  induction l₁ with
  | nil => simp [headerGet?]
  | cons p rest ih =>
    obtain ⟨k₀, v₀⟩ := p
    by_cases h : k₀ = k <;> simp [headerGet?, h, ih]

theorem headerGet?_filter_ne (hs : Headers) (key k : String) (h : k ≠ key) :
    headerGet? (hs.filter (fun p => p.1 != key)) k = headerGet? hs k := by
  induction hs with
  | nil => rfl
  | cons p rest ih =>
    obtain ⟨k₀, v₀⟩ := p
    by_cases hkey : k₀ = key
    · subst hkey
      have hk : k₀ ≠ k := fun hx => h hx.symm
      simp [List.filter_cons, headerGet?, hk, ih]
    · by_cases hk : k₀ = k <;>
        simp [List.filter_cons, bne_iff_ne, headerGet?, hkey, hk, h, ih]

theorem headerGet?_filter_self (hs : Headers) (key : String) :
    headerGet? (hs.filter (fun p => p.1 != key)) key = none := by
  induction hs with
  | nil => rfl
  | cons p rest ih =>
    obtain ⟨k₀, v₀⟩ := p
    by_cases hkey : k₀ = key <;>
      simp [List.filter_cons, bne_iff_ne, headerGet?, hkey, ih]

/-- C1: for every response whose status code is 202 (Accepted) and whose
Azure-AsyncOperation header is present and non-empty, `ResponseIsLongRunning`
returns true. -/
theorem responseIsLongRunning_of_accepted_and_header (resp : Response)
    (hstatus : resp.statusCode = 202) (hheader : GetAsyncOperation resp ≠ "") :
    ResponseIsLongRunning resp = true := by
  simp [ResponseIsLongRunning, ResponseRequiresPolling, hstatus, hheader]

/-- Witness for C1 at a concrete 202 response carrying the header. -/
theorem responseIsLongRunning_of_accepted_and_header_witness :
    ResponseIsLongRunning
      { statusCode := 202,
        headers := [(HeaderAsyncOperation, "https://contoso.example/operations/1")],
        body := { data := "", closed := false, inMemory := false } } = true :=
  responseIsLongRunning_of_accepted_and_header _ rfl (by decide)

/-- C7: `ResponseIsLongRunning` returns true iff both the generic polling-required
predicate (with extra accepted code 201, as passed in the source) holds and the
Azure-AsyncOperation header is present and non-empty; in particular a response
missing that header yields false regardless of status code. -/
theorem responseIsLongRunning_iff (resp : Response) :
    (ResponseIsLongRunning resp = true ↔
      (ResponseRequiresPolling resp [201] = true ∧ GetAsyncOperation resp ≠ ""))
    ∧ (GetAsyncOperation resp = "" → ResponseIsLongRunning resp = false) := by
  constructor
  · simp [ResponseIsLongRunning, bne_iff_ne]
  · intro h
    simp [ResponseIsLongRunning, h]

/-- Witness for C7 at a concrete 202 response without the header. -/
theorem responseIsLongRunning_iff_witness :
    ResponseIsLongRunning
      { statusCode := 202, headers := [],
        body := { data := "", closed := false, inMemory := false } } = false :=
  (responseIsLongRunning_iff _).2 rfl

/-- C3: for a base sender yielding [in-progress, in-progress, terminal] (the first
two long-running, the third not) with no transport error and no cancellation (both
delays complete), the polling loop of `WithAsyncPolling` invokes the base sender
exactly 3 times and returns the terminal response with a nil error. -/
theorem withAsyncPolling_three_responses (r1 r2 r3 : Response)
    (h1 : ResponseIsLongRunning r1 = true) (h2 : ResponseIsLongRunning r2 = true)
    (h3 : ResponseIsLongRunning r3 = false) :
    WithAsyncPolling [SendResult.ok r1, SendResult.ok r2, SendResult.ok r3] [none, none]
      = (some r3, none, 3) := by
  simp [WithAsyncPolling, pollLoop, h1, h2, h3]

/-- Witness for C3 at a concrete response sequence. -/
theorem withAsyncPolling_three_responses_witness :
    WithAsyncPolling
      [SendResult.ok
         { statusCode := 202,
           headers := [(HeaderAsyncOperation, "https://contoso.example/operations/1")],
           body := { data := "", closed := false, inMemory := false } },
       SendResult.ok
         { statusCode := 202,
           headers := [(HeaderAsyncOperation, "https://contoso.example/operations/1")],
           body := { data := "", closed := false, inMemory := false } },
       SendResult.ok
         { statusCode := 200, headers := [],
           body := { data := "done", closed := false, inMemory := false } }]
      [none, none]
      = (some
          { statusCode := 200, headers := [],
            body := { data := "done", closed := false, inMemory := false } }, none, 3) :=
  withAsyncPolling_three_responses _ _ _ (by decide) (by decide) (by decide)

/-- C5: `NewAsyncPollingRequest` on a response whose Azure-AsyncOperation header is
absent or empty returns a nil request and the missing-header error, leaving the
response (in particular its body) untouched; when the header is non-empty and
request construction succeeds it returns a GET request targeting the header's URL
and closes the original response body. -/
theorem newAsyncPollingRequest_spec (urlOK : String → Bool) (resp : Response) :
    (GetAsyncOperation resp = "" →
      NewAsyncPollingRequest urlOK resp =
        ((none, some (Err.detailed "azure" "NewAsyncPollingRequest" resp.statusCode
           "Azure-AsyncOperation header missing from response that requires polling")),
         resp))
    ∧ (GetAsyncOperation resp ≠ "" → urlOK (GetAsyncOperation resp) = true →
      NewAsyncPollingRequest urlOK resp =
        ((some { method := "GET", url := GetAsyncOperation resp, headers := [] }, none),
         { resp with body := { resp.body with closed := true } })) := by
  constructor
  · intro h
    simp [NewAsyncPollingRequest, h]
  · intro h hok
    simp [NewAsyncPollingRequest, h, hok]

/-- Witness for C5: the missing-header case and the successful case at concrete
responses. -/
theorem newAsyncPollingRequest_spec_witness :
    (NewAsyncPollingRequest (fun _ => true)
       { statusCode := 202, headers := [],
         body := { data := "", closed := false, inMemory := false } } =
      ((none, some (Err.detailed "azure" "NewAsyncPollingRequest" 202
         "Azure-AsyncOperation header missing from response that requires polling")),
       { statusCode := 202, headers := [],
         body := { data := "", closed := false, inMemory := false } }))
    ∧ (NewAsyncPollingRequest (fun _ => true)
       { statusCode := 202,
         headers := [(HeaderAsyncOperation, "https://contoso.example/operations/1")],
         body := { data := "", closed := false, inMemory := false } } =
      ((some
          { method := "GET", url := "https://contoso.example/operations/1",
            headers := [] }, none),
       { statusCode := 202,
         headers := [(HeaderAsyncOperation, "https://contoso.example/operations/1")],
         body := { data := "", closed := true, inMemory := false } })) :=
  ⟨(newAsyncPollingRequest_spec _ _).1 rfl,
   (newAsyncPollingRequest_spec _ _).2 (by decide) rfl⟩

/-- C8: for every response whose status code is in the whitelist, provided the
inner responder returns no error, the decorator returns no error and does not
read, close or replace the response body: the whole result is the inner
responder's response unchanged, with the original body not closed. -/
theorem withErrorUnlessStatusCode_whitelist (codes : List Nat)
    (decode : String → DecodeResult) (inner : Response → Response × Option Err)
    (resp resp₁ : Response)
    (hinner : inner resp = (resp₁, none))
    (hcode : ResponseHasStatusCode resp₁ codes = true) :
    WithErrorUnlessStatusCode codes decode inner resp =
      { resp := resp₁, originalBodyClosed := false, err := none } := by
  simp [WithErrorUnlessStatusCode, hinner, hcode]

/-- Witness for C8 at a concrete whitelisted response. -/
theorem withErrorUnlessStatusCode_whitelist_witness :
    WithErrorUnlessStatusCode [200, 201] (fun _ => DecodeResult.failure)
      (fun r => (r, none))
      { statusCode := 200, headers := [],
        body := { data := "payload", closed := false, inMemory := false } } =
      { resp :=
          { statusCode := 200, headers := [],
            body := { data := "payload", closed := false, inMemory := false } },
        originalBodyClosed := false, err := none } :=
  withErrorUnlessStatusCode_whitelist _ _ _ _ _ rfl (by decide)

/-- C4: whenever `WithErrorUnlessStatusCode` reads the body for decoding (status
outside the whitelist, inner responder succeeded), regardless of the decode
outcome, the original body stream is closed and the response's body is replaced by
an in-memory reader over exactly the bytes that were read — the bytes the body
held. -/
theorem withErrorUnlessStatusCode_body_replaced (codes : List Nat)
    (decode : String → DecodeResult) (inner : Response → Response × Option Err)
    (resp resp₁ : Response)
    (hinner : inner resp = (resp₁, none))
    (hcode : ResponseHasStatusCode resp₁ codes = false) :
    (WithErrorUnlessStatusCode codes decode inner resp).originalBodyClosed = true
    ∧ (WithErrorUnlessStatusCode codes decode inner resp).resp.body =
        { data := resp₁.body.data, closed := false, inMemory := true } := by
  cases h : decode resp₁.body.data with
  | failure => simp [WithErrorUnlessStatusCode, hinner, hcode, h]
  | success se => cases se <;> simp [WithErrorUnlessStatusCode, hinner, hcode, h]

/-- Witness for C4 at a concrete non-whitelisted response. -/
theorem withErrorUnlessStatusCode_body_replaced_witness :
    (WithErrorUnlessStatusCode [200] (fun _ => DecodeResult.failure)
       (fun r => (r, none))
       { statusCode := 500, headers := [],
         body := { data := "oops", closed := false, inMemory := false } }).originalBodyClosed
      = true
    ∧ (WithErrorUnlessStatusCode [200] (fun _ => DecodeResult.failure)
       (fun r => (r, none))
       { statusCode := 500, headers := [],
         body := { data := "oops", closed := false, inMemory := false } }).resp.body =
      { data := "oops", closed := false, inMemory := true } :=
  withErrorUnlessStatusCode_body_replaced _ _ _ _ _ rfl (by decide)

/-- C2: for every response outside the whitelist whose body decodes into a vendor
error payload (non-null ServiceError), with the inner responder succeeding, the
decorator returns a RequestError carrying exactly the decoded code and message,
the response's x-ms-request-id header value as RequestID, and the response's
status code. -/
theorem withErrorUnlessStatusCode_decoded_error (codes : List Nat)
    (decode : String → DecodeResult) (inner : Response → Response × Option Err)
    (resp resp₁ : Response) (se : ServiceError)
    (hinner : inner resp = (resp₁, none))
    (hcode : ResponseHasStatusCode resp₁ codes = false)
    (hdec : decode resp₁.body.data = DecodeResult.success (some se)) :
    (WithErrorUnlessStatusCode codes decode inner resp).err =
      some (Err.request none "" "" resp₁.statusCode "" (some se)
        (ExtractHeaderValue HeaderRequestID resp₁)) := by
  simp [WithErrorUnlessStatusCode, hinner, hcode, hdec, ExtractRequestID,
    ExtractHeaderValue]

/-- Witness for C2 at a concrete 400 response with a decodable vendor payload. -/
theorem withErrorUnlessStatusCode_decoded_error_witness :
    (WithErrorUnlessStatusCode [200]
       (fun _ => DecodeResult.success
         (some { code := "InvalidResource", message := "resource not found" }))
       (fun r => (r, none))
       { statusCode := 400, headers := [(HeaderRequestID, "req-123")],
         body := { data := "errbody", closed := false, inMemory := false } }).err =
      some (Err.request none "" "" 400 ""
        (some { code := "InvalidResource", message := "resource not found" })
        "req-123") :=
  withErrorUnlessStatusCode_decoded_error _ _ _ _ _ _ rfl (by decide) rfl

/-- C6: for every response outside the whitelist whose body fails to decode or
decodes without a vendor error payload, the decorator returns the generic
"cannot be parsed" error — `fmt.Errorf` embedding the quoted raw body text and the
(nil) upstream error — and never a RequestError. -/
theorem withErrorUnlessStatusCode_unparseable (codes : List Nat)
    (decode : String → DecodeResult) (inner : Response → Response × Option Err)
    (resp resp₁ : Response)
    (hinner : inner resp = (resp₁, none))
    (hcode : ResponseHasStatusCode resp₁ codes = false)
    (hdec : decode resp₁.body.data = DecodeResult.failure ∨
            decode resp₁.body.data = DecodeResult.success none) :
    (WithErrorUnlessStatusCode codes decode inner resp).err =
      some (Err.generic ("autorest/azure: error response cannot be parsed: "
        ++ goQuote resp₁.body.data ++ " error: <nil>"))
    ∧ ∀ e, (WithErrorUnlessStatusCode codes decode inner resp).err = some e →
        IsAzureError e = false := by
  have hmain : (WithErrorUnlessStatusCode codes decode inner resp).err =
      some (Err.generic ("autorest/azure: error response cannot be parsed: "
        ++ goQuote resp₁.body.data ++ " error: <nil>")) := by
    rcases hdec with h | h <;> simp [WithErrorUnlessStatusCode, hinner, hcode, h]
  refine ⟨hmain, ?_⟩
  intro e he
  rw [hmain] at he
  obtain rfl : _ = e := by injection he
  rfl

/-- Witness for C6 at a concrete 500 response whose body does not decode. -/
theorem withErrorUnlessStatusCode_unparseable_witness :
    (WithErrorUnlessStatusCode [200] (fun _ => DecodeResult.failure)
       (fun r => (r, none))
       { statusCode := 500, headers := [],
         body := { data := "not json", closed := false, inMemory := false } }).err =
      some (Err.generic ("autorest/azure: error response cannot be parsed: "
        ++ goQuote "not json" ++ " error: <nil>")) := by
  exact (withErrorUnlessStatusCode_unparseable [200] (fun _ => DecodeResult.failure)
    (fun r => (r, none))
    { statusCode := 500, headers := [],
      body := { data := "not json", closed := false, inMemory := false } }
    { statusCode := 500, headers := [],
      body := { data := "not json", closed := false, inMemory := false } }
    rfl (by decide) (Or.inl rfl)).1

/-- C9: applying the preparer of `WithClientID("ABC")` sets the
x-ms-client-request-id header to exactly "ABC" and leaves the lookup of every
other header name unchanged (so no other header is altered or added). -/
theorem withClientID_sets_only_clientID (r : Request) :
    headerGet? (WithClientID "ABC" r).headers HeaderClientID = some "ABC"
    ∧ ∀ k, k ≠ HeaderClientID →
        headerGet? (WithClientID "ABC" r).headers k = headerGet? r.headers k := by
  constructor
  · simp [WithClientID, WithHeader, setHeader, headerGet?_append,
      headerGet?_filter_self, headerGet?]
  · intro k hk
    rw [WithClientID, WithHeader]
    simp only [setHeader, headerGet?_append, headerGet?_filter_ne _ _ _ hk]
    cases hres : headerGet? r.headers k <;> simp [hres, headerGet?, Ne.symm hk]

/-- Witness for C9 at a concrete request with one unrelated header. -/
theorem withClientID_sets_only_clientID_witness :
    headerGet?
      (WithClientID "ABC"
        { method := "PUT", url := "https://contoso.example/r",
          headers := [("Accept", "application/json")] }).headers
      HeaderClientID = some "ABC"
    ∧ headerGet?
      (WithClientID "ABC"
        { method := "PUT", url := "https://contoso.example/r",
          headers := [("Accept", "application/json")] }).headers
      "Accept" = headerGet?
        ({ method := "PUT", url := "https://contoso.example/r",
           headers := [("Accept", "application/json")] } : Request).headers "Accept" :=
  ⟨(withClientID_sets_only_clientID _).1,
   (withClientID_sets_only_clientID _).2 "Accept" (by decide)⟩

/-- C10: `RequestError.Error()` dereferences the ServiceError field, so (first
conjunct) it panics — returns no message — exactly when ServiceError is nil;
(second conjunct) every RequestError that `WithErrorUnlessStatusCode` returns,
when the inner responder succeeded, has ServiceError non-nil and so a defined
message; (third conjunct) `NewErrorWithError` on an original error that is not
already a `*RequestError` builds a RequestError with ServiceError nil, on which
the Error method is a nil dereference. -/
theorem requestError_nil_serviceError_safety :
    (∀ o p m sc msg rid, requestErrorString (Err.request o p m sc msg none rid) = none)
    ∧ (∀ (codes : List Nat) (decode : String → DecodeResult)
        (inner : Response → Response × Option Err) (resp resp₁ : Response) (e : Err),
        inner resp = (resp₁, none) →
        (WithErrorUnlessStatusCode codes decode inner resp).err = some e →
        IsAzureError e = true →
        (requestErrorString e).isSome = true)
    ∧ (∀ (original : Option Err) (packageType method : String)
        (resp : Option Response) (message : String),
        (∀ o, original = some o → IsAzureError o = false) →
        requestErrorString
          (NewErrorWithError original packageType method resp message) = none) := by
  refine ⟨fun o p m sc msg rid => rfl, ?_, ?_⟩
  · intro codes decode inner resp resp₁ e hinner herr hazure
    by_cases hcode : ResponseHasStatusCode resp₁ codes = true
    · simp [WithErrorUnlessStatusCode, hinner, hcode] at herr
    · simp only [Bool.not_eq_true] at hcode
      cases hdec : decode resp₁.body.data with
      | failure =>
        simp [WithErrorUnlessStatusCode, hinner, hcode, hdec] at herr
        subst herr
        simp [IsAzureError] at hazure
      | success se =>
        cases se with
        | none =>
          simp [WithErrorUnlessStatusCode, hinner, hcode, hdec] at herr
          subst herr
          simp [IsAzureError] at hazure
        | some s =>
          simp [WithErrorUnlessStatusCode, hinner, hcode, hdec] at herr
          subst herr
          simp [requestErrorString]
  · intro original packageType method resp message hno
    match original with
    | none => cases resp <;> rfl
    | some (Err.request o p m sc msg se rid) =>
      have hfalse := hno _ rfl
      simp [IsAzureError] at hfalse
    | some (Err.detailed p m sc msg) => cases resp <;> rfl
    | some (Err.generic msg) => cases resp <;> rfl
    | some Err.cancel => cases resp <;> rfl
    | some (Err.transport msg) => cases resp <;> rfl

/-- Witness for C10: a decoded RequestError has a defined message, while
`NewErrorWithError` over a generic original yields one whose Error call is a nil
dereference. -/
theorem requestError_nil_serviceError_safety_witness :
    (requestErrorString
       (Err.request none "" "" 500 ""
         (some { code := "BadRequest", message := "oops" }) "req-9")).isSome = true
    ∧ requestErrorString
        (NewErrorWithError (some (Err.generic "boom")) "azure" "Method" none
          "request failed") = none :=
  ⟨requestError_nil_serviceError_safety.2.1 [200]
      (fun _ => DecodeResult.success (some { code := "BadRequest", message := "oops" }))
      (fun r => (r, none))
      { statusCode := 500, headers := [(HeaderRequestID, "req-9")],
        body := { data := "e", closed := false, inMemory := false } }
      { statusCode := 500, headers := [(HeaderRequestID, "req-9")],
        body := { data := "e", closed := false, inMemory := false } }
      (Err.request none "" "" 500 ""
        (some { code := "BadRequest", message := "oops" }) "req-9")
      rfl rfl rfl,
   requestError_nil_serviceError_safety.2.2 (some (Err.generic "boom")) "azure" "Method"
      none "request failed" (fun o ho => by cases ho; rfl)⟩

end Azure
